import Mathlib

/-!
Shallow embedding of the goose-server plugin core
(`crates/goose-server/src/plugins/mod.rs` and
`crates/goose-server/src/plugins/llmserver.rs`).

Pure logic (validation, URL construction, argument resolution, table
mutation) is translated directly.  External effects are made explicit:
the HTTP transport is a function parameter, spawn / kill / wait outcomes
are oracle values carried by the `Child` record, and the operations
return, besides the result, the new tracking table and a trace of the
side effects they performed (HTTP requests issued, file content written,
tracking-table inserts, kill/wait calls), so that claims about "no
network call", "inserted exactly once" or "kill skipped" are statements
about those traces.
-/

set_option maxRecDepth 4000

/-!
String primitives.  The Rust string operations the plugin uses
(`str::trim`, `str::is_empty`, `str::split('/')`, `Path::is_absolute`)
are defined here over the character list of a `String`, so that every
definition in this file evaluates by kernel reduction on concrete
inputs.
-/

/-- Whitespace as tested by `str::trim` (the ASCII white-space
characters; other Unicode white space does not occur in the inputs
considered here). -/
def rustIsWhitespace (c : Char) : Bool :=
  c = ' ' || c = '\t' || c = '\n' || c = '\r'

/-- Rust `str::trim`: strip leading and trailing whitespace. -/
def rustTrim (s : String) : String :=
  String.mk (((s.data.dropWhile rustIsWhitespace).reverse.dropWhile
    rustIsWhitespace).reverse)

/-- Rust `str::is_empty`. -/
def rustIsEmpty (s : String) : Bool :=
  s.data.isEmpty

/-- Rust `str::split` on a single separator character; like the Rust
iterator, it yields one (possibly empty) piece between each pair of
separators, so the empty string yields one empty piece. -/
def splitOnChar (sep : Char) : List Char → List (List Char)
  | [] => [[]]
  | c :: rest =>
    let r := splitOnChar sep rest
    if c = sep then [] :: r
    else
      match r with
      | [] => [[c]]
      | g :: gs => (c :: g) :: gs

/-- Rust `model_id.split('/')` as a list of strings. -/
def splitSlash (s : String) : List String :=
  (splitOnChar '/' s.data).map String.mk

/-- Whether a path string is absolute (starts with `/`), the case in
which Rust `Path::join` replaces the base path. -/
def startsWithSlash (s : String) : Bool :=
  match s.data with
  | [] => false
  | c :: _ => c = '/'

/-- `PluginTaskType` from `plugins/mod.rs` (lines 14-17). -/
inductive PluginTaskType where
  | Text
  | Tts
deriving DecidableEq, Repr

/-- `PluginTaskType::as_directory_suffix` (`plugins/mod.rs` lines 20-25). -/
def PluginTaskType.as_directory_suffix : PluginTaskType → String
  | .Text => "text"
  | .Tts => "tts"

/-- `PluginCapability` from `plugins/mod.rs` (lines 30-34). -/
inductive PluginCapability where
  | ModelDownload
  | ServiceStart
  | ServiceStop
deriving DecidableEq, Repr

/-- `PluginMetadata` from `plugins/mod.rs` (lines 37-42). -/
structure PluginMetadata where
  id : String
  name : String
  description : String
  capabilities : List PluginCapability
deriving DecidableEq, Repr

/-- `DownloadModelRequest` from `plugins/mod.rs` (lines 45-55). -/
structure DownloadModelRequest where
  model_id : String
  filename : String
  revision : String
  destination_dir : Option String
  auth_token : Option String
  task_type : PluginTaskType
deriving DecidableEq, Repr

/-- `default_revision` from `plugins/mod.rs` (lines 57-59). -/
def default_revision : String := "main"

/-- `DownloadModelResponse` from `plugins/mod.rs` (lines 62-65). -/
structure DownloadModelResponse where
  saved_path : String
  bytes_written : Nat
deriving DecidableEq, Repr

/-- `StartServiceRequest` from `plugins/mod.rs` (lines 68-77); the
`environment` HashMap is modelled as an association list. -/
structure StartServiceRequest where
  task_type : PluginTaskType
  model_path : String
  binary_path : Option String
  args : Option (List String)
  environment : Option (List (String × String))
deriving DecidableEq, Repr

/-- `StartServiceResponse` from `plugins/mod.rs` (lines 80-84). -/
structure StartServiceResponse where
  pid : Nat
  command : String
  args : List String
deriving DecidableEq, Repr

/-- `StopServiceRequest` from `plugins/mod.rs` (lines 87-89). -/
structure StopServiceRequest where
  task_type : PluginTaskType
deriving DecidableEq, Repr

/-- `StopServiceResponse` from `plugins/mod.rs` (lines 92-95). -/
structure StopServiceResponse where
  task_type : PluginTaskType
  terminated : Bool
deriving DecidableEq, Repr

/-- `PluginError` from `plugins/mod.rs` (lines 98-113).  The wrapped
`std::io::Error` and `reqwest::Error` payloads are modelled by their
message strings. -/
inductive PluginError where
  | UnsupportedOperation
  | InvalidRequest (msg : String)
  | ProcessAlreadyRunning (task : PluginTaskType)
  | ProcessNotRunning (task : PluginTaskType)
  | Io (msg : String)
  | Network (msg : String)
  | ProcessStart (msg : String)
deriving DecidableEq, Repr

/-- Recognizer for the invalid-request error kind. -/
def PluginError.isInvalidRequest : PluginError → Bool
  | .InvalidRequest _ => true
  | _ => false

/-- Recognizer for the unsupported-operation error kind. -/
def PluginError.isUnsupported : PluginError → Bool
  | .UnsupportedOperation => true
  | _ => false

/-- A spawned child process (`tokio::process::Child`).  `pid` models
`child.id()`; `kill_error` and `wait_error` are oracles for the
outcomes the OS would give to `child.kill().await` and
`child.wait().await` (`none` = success, `some msg` = failure). -/
structure Child where
  pid : Option Nat
  kill_error : Option String
  wait_error : Option String
deriving DecidableEq, Repr

/-- `ManagedProcess` from `llmserver.rs`.  The source contains two
overlapping definitions (lines 17-36, an apparent copy-paste defect);
this is the complete second shape `{ child, command, args }` used by
the final insert. -/
structure ManagedProcess where
  child : Child
  command : String
  args : List String
deriving DecidableEq, Repr

/-- The entry produced by the one-argument constructor
`ManagedProcess::new(child)` of the first, partial `ManagedProcess`
definition (`llmserver.rs` lines 21-23): only the child handle is
populated. -/
def ManagedProcess.partialEntry (child : Child) : ManagedProcess :=
  { child := child, command := "", args := [] }

/-- The tracking table `HashMap<PluginTaskType, ManagedProcess>`
(`llmserver.rs` line 44), modelled as a finite map by function. -/
def ProcTable : Type := PluginTaskType → Option ManagedProcess

/-- `HashMap::insert` on the tracking table. -/
def tableInsert (st : ProcTable) (k : PluginTaskType) (v : ManagedProcess) : ProcTable :=
  fun t => if t = k then some v else st t

/-- `HashMap::remove` on the tracking table. -/
def tableRemove (st : ProcTable) (k : PluginTaskType) : ProcTable :=
  fun t => if t = k then none else st t

/-- The empty tracking table (`HashMap::new()`, `llmserver.rs` line 82). -/
def emptyTable : ProcTable := fun _ => none

/-- `LlmServerPlugin` configuration state (`llmserver.rs` lines 39-45).
The `reqwest::Client` is replaced by an explicit transport parameter at
the call sites; the process table is threaded explicitly. -/
structure LlmServerPlugin where
  metadata : PluginMetadata
  base_dir : String
  default_binary : Option String
deriving DecidableEq, Repr

/-- The metadata built by `LlmServerPlugin::bootstrap`
(`llmserver.rs` lines 62-71). -/
def llmserver_metadata : PluginMetadata :=
  { id := "llmserver-rs"
    name := "llmserver-rs"
    description := "Manage llmserver-rs instances and download models"
    capabilities :=
      [PluginCapability.ModelDownload, PluginCapability.ServiceStart,
        PluginCapability.ServiceStop] }

/-- `Path::join` for the relative components used by the plugin: an
absolute right operand replaces the base, otherwise it is appended as a
new component. -/
def path_join (base component : String) : String :=
  if startsWithSlash component then component else base ++ "/" ++ component

/-- `LlmServerPlugin::resolve_destination_dir` (`llmserver.rs` lines
86-92). -/
def LlmServerPlugin.resolve_destination_dir (plugin : LlmServerPlugin)
    (request : DownloadModelRequest) : String :=
  match request.destination_dir with
  | some dir => dir
  | none => path_join plugin.base_dir request.task_type.as_directory_suffix

/-- `LlmServerPlugin::resolve_binary_path` (`llmserver.rs` lines
94-106). -/
def LlmServerPlugin.resolve_binary_path (plugin : LlmServerPlugin)
    (request : StartServiceRequest) : Except PluginError String :=
  match request.binary_path with
  | some explicit => .ok explicit
  | none =>
    match plugin.default_binary with
    | some d => .ok d
    | none =>
      .error (.InvalidRequest "binary_path not provided and GOOSE_PLUGIN_LLM_BINARY unset")

/-- `LlmServerPlugin::default_args` (`llmserver.rs` lines 108-116). -/
def LlmServerPlugin.default_args (task : PluginTaskType) (model_path : String) :
    List String :=
  ["serve", "--model", model_path, "--task", task.as_directory_suffix]

/-- The retrieval URL built by `build_download_url`, abstracted to its
observable parts: host, decoded path segments, query string. -/
structure Url where
  host : String
  path_segments : List String
  query : Option String
deriving DecidableEq, Repr

/-- `LlmServerPlugin::build_download_url` (`llmserver.rs` lines
137-161): starting from the fixed host, push each non-empty
slash-separated segment of the model id, then `resolve`, the revision
and the filename, and set the query to `download=1`.  The two fallible
steps of the source (parsing the constant base URL, obtaining the
segment editor) cannot fail for this fixed https base, so the
construction is total here. -/
def LlmServerPlugin.build_download_url (request : DownloadModelRequest) : Url :=
  { host := "huggingface.co"
    path_segments :=
      ((splitSlash request.model_id).filter (fun segment => !rustIsEmpty segment))
        ++ ["resolve", request.revision, request.filename]
    query := some "download=1" }

/-- An HTTP GET as issued by `download_model`: the URL plus the optional
bearer token attached via `bearer_auth`. -/
structure HttpRequest where
  url : Url
  bearer : Option String
deriving DecidableEq, Repr

/-- Outcome of `builder.send().await?.error_for_status()?` followed by
streaming the body: either the full chunk sequence (each chunk a list of
bytes), a non-2xx status, or a transport failure. -/
inductive HttpResponse where
  | success (chunks : List (List Nat))
  | status_error (code : Nat)
  | transport_error (msg : String)
deriving DecidableEq, Repr

/-- `LlmServerPlugin::store_model` (`llmserver.rs` lines 118-135): the
streaming loop, accumulating the running byte count and the file
content chunk by chunk.  Returns (bytes_written, file content). -/
def LlmServerPlugin.store_model (chunks : List (List Nat)) : Nat × List Nat :=
  chunks.foldl (fun acc chunk => (acc.1 + chunk.length, acc.2 ++ chunk)) (0, [])

/-- Everything a `download_model` call produces: the returned result,
the list of HTTP requests actually issued, and the file written (path
and full content), if any.  A write aborted by a filesystem error
leaves `written = none` (the source performs no partial-file cleanup;
partial content is not modelled). -/
structure DownloadOutcome where
  result : Except PluginError DownloadModelResponse
  requests : List HttpRequest
  written : Option (String × List Nat)
deriving Repr

/-- `LlmServerPlugin::download_model` (`llmserver.rs` lines 170-202).
`transport` is the HTTP client; `fs_error` is the oracle for a
filesystem failure inside `store_model` (`none` = all writes succeed). -/
def LlmServerPlugin.download_model (plugin : LlmServerPlugin)
    (transport : HttpRequest → HttpResponse) (fs_error : Option String)
    (request : DownloadModelRequest) : DownloadOutcome :=
  if rustIsEmpty (rustTrim request.model_id) then
    { result := .error (.InvalidRequest "model_id is required")
      requests := [], written := none }
  else if rustIsEmpty (rustTrim request.filename) then
    { result := .error (.InvalidRequest "filename is required")
      requests := [], written := none }
  else
    let url := LlmServerPlugin.build_download_url request
    let httpReq : HttpRequest := { url := url, bearer := request.auth_token }
    match transport httpReq with
    | .status_error code =>
        { result := .error (.Network ("status " ++ toString code))
          requests := [httpReq], written := none }
    | .transport_error msg =>
        { result := .error (.Network msg)
          requests := [httpReq], written := none }
    | .success chunks =>
        match fs_error with
        | some msg =>
            { result := .error (.Io msg)
              requests := [httpReq], written := none }
        | none =>
            let destination_dir := plugin.resolve_destination_dir request
            let target_path := path_join destination_dir request.filename
            let stored := LlmServerPlugin.store_model chunks
            { result := .ok { saved_path := target_path, bytes_written := stored.1 }
              requests := [httpReq]
              written := some (target_path, stored.2) }

/-- `LlmServerPlugin::start_service` (`llmserver.rs` lines 204-262),
sequential semantics (no interleaving; the interleaved lock discipline
is modelled separately below).  `spawn` is the oracle for
`command.spawn()`.  Returns the result, the tracking table after the
call, and the trace of tracking-table insert operations performed (the
category of each `insert` call, in order).  The source performs two
inserts for the same key (lines 247 and 248-255): the first with the
one-argument `ManagedProcess::new(child)` of the partial struct
definition, the second, which overwrites it, with the full entry. -/
def LlmServerPlugin.start_service (plugin : LlmServerPlugin)
    (spawn : Except String Child) (st : ProcTable)
    (request : StartServiceRequest) :
    Except PluginError StartServiceResponse × ProcTable × List PluginTaskType :=
  if rustIsEmpty (rustTrim request.model_path) then
    (.error (.InvalidRequest "model_path is required"), st, [])
  else
    match plugin.resolve_binary_path request with
    | .error e => (.error e, st, [])
    | .ok binary_path =>
      let args := request.args.getD
        (LlmServerPlugin.default_args request.task_type request.model_path)
      if (st request.task_type).isSome then
        (.error (.ProcessAlreadyRunning request.task_type), st, [])
      else
        match spawn with
        | .error err => (.error (.ProcessStart err), st, [])
        | .ok child =>
          match child.pid with
          | none =>
              (.error (.ProcessStart "failed to obtain process identifier"), st, [])
          | some pid =>
              let st1 := tableInsert st request.task_type
                (ManagedProcess.partialEntry child)
              let st2 := tableInsert st1 request.task_type
                { child := child, command := binary_path, args := args }
              (.ok { pid := pid, command := binary_path, args := args },
                st2, [request.task_type, request.task_type])

/-- The process-level calls `stop_service` performs on the removed
child. -/
inductive ProcAction where
  | kill
  | wait
deriving DecidableEq, Repr

/-- `LlmServerPlugin::stop_service` (`llmserver.rs` lines 264-289).
Returns the result, the tracking table after the call, and the trace of
kill/wait calls performed on the removed child. -/
def LlmServerPlugin.stop_service (st : ProcTable) (request : StopServiceRequest) :
    Except PluginError StopServiceResponse × ProcTable × List ProcAction :=
  match st request.task_type with
  | none => (.error (.ProcessNotRunning request.task_type), st, [])
  | some managed =>
    let st1 := tableRemove st request.task_type
    match managed.child.pid with
    | none => (.ok { task_type := request.task_type, terminated := true }, st1, [])
    | some _ =>
      match managed.child.kill_error with
      | some err => (.error (.ProcessStart err), st1, [ProcAction.kill])
      | none =>
        match managed.child.wait_error with
        | some err =>
            (.error (.ProcessStart err), st1, [ProcAction.kill, ProcAction.wait])
        | none =>
            (.ok { task_type := request.task_type, terminated := true }, st1,
              [ProcAction.kill, ProcAction.wait])

/-- The default method bodies of the `ServerPlugin` trait
(`plugins/mod.rs` lines 119-124). -/
def default_download_model (_request : DownloadModelRequest) :
    Except PluginError DownloadModelResponse :=
  .error .UnsupportedOperation

/-- Default `start_service` of the `ServerPlugin` trait
(`plugins/mod.rs` lines 126-131). -/
def default_start_service (_request : StartServiceRequest) :
    Except PluginError StartServiceResponse :=
  .error .UnsupportedOperation

/-- Default `stop_service` of the `ServerPlugin` trait
(`plugins/mod.rs` lines 133-138). -/
def default_stop_service (_request : StopServiceRequest) :
    Except PluginError StopServiceResponse :=
  .error .UnsupportedOperation

/-- The `ServerPlugin` trait (`plugins/mod.rs` lines 115-139), as a
record of the three optional operations with the trait's default
bodies as field defaults; `metadata` is the one required member. -/
structure ServerPlugin where
  metadata : PluginMetadata
  download_model : DownloadModelRequest → Except PluginError DownloadModelResponse :=
    default_download_model
  start_service : StartServiceRequest → Except PluginError StartServiceResponse :=
    default_start_service
  stop_service : StopServiceRequest → Except PluginError StopServiceResponse :=
    default_stop_service

/-- A plugin that implements only `metadata` and overrides none of the
optional operations. -/
def pluginWithDefaults (m : PluginMetadata) : ServerPlugin :=
  { metadata := m }

/-!
Interleaving model of `start_service`'s lock discipline on one
contended task category (`llmserver.rs` lines 231-255).  The source
takes the mutex in a scoped block for the existence check (lines
231-236: lock, `contains_key`, unlock at end of block), spawns the
child with the lock released (lines 238-244), and then re-acquires the
lock for the insert (line 246).  Each lock-protected section is one
atomic step; the spawn between them is its own step.
-/

/-- Where one `start_service` call stands in its lock discipline. -/
inductive StartPhase where
  | ready : StartPhase
  | checkFailed : StartPhase
  | spawning : StartPhase
  | inserting : StartPhase
  | succeeded : StartPhase
deriving DecidableEq, Repr

/-- Shared state of N `start_service` calls racing on one task
category: whether the tracking table has an entry for that category,
how many child processes have been spawned, and each call's phase. -/
structure RaceState where
  occupied : Bool
  spawn_count : Nat
  phases : List StartPhase
deriving DecidableEq, Repr

/-- One atomic step of thread `i`:
`ready` performs the locked existence check (lines 231-236) and either
fails with already-running or passes; `spawning` performs the spawn
with the lock released (lines 238-244); `inserting` re-acquires the
lock and inserts (lines 246-255), completing successfully. -/
def raceStep (s : RaceState) (i : Nat) : RaceState :=
  match s.phases[i]? with
  | none => s
  | some .ready =>
      if s.occupied then { s with phases := s.phases.set i .checkFailed }
      else { s with phases := s.phases.set i .spawning }
  | some .spawning =>
      { s with spawn_count := s.spawn_count + 1, phases := s.phases.set i .inserting }
  | some .inserting =>
      { s with occupied := true, phases := s.phases.set i .succeeded }
  | some .checkFailed => s
  | some .succeeded => s

/-- Run a schedule (a list of thread indices) from a state. -/
def raceRun (s : RaceState) (sched : List Nat) : RaceState :=
  sched.foldl raceStep s

/-- Initial state: no entry for the category, nothing spawned, `n`
calls about to perform the check. -/
def raceInit (n : Nat) : RaceState :=
  { occupied := false, spawn_count := 0, phases := List.replicate n .ready }

/-!
Concrete sample values used by the witnesses and the concrete
evaluations below.
-/

/-- A plugin configuration with a configured default binary. -/
def samplePlugin : LlmServerPlugin :=
  { metadata := llmserver_metadata
    base_dir := "/data/plugins/llmserver"
    default_binary := some "/usr/local/bin/llmserver" }

/-- A plugin configuration without a configured default binary. -/
def samplePluginNoDefault : LlmServerPlugin :=
  { metadata := llmserver_metadata
    base_dir := "/data/plugins/llmserver"
    default_binary := none }

/-- A transport that always fails; any issued request would be
observable in the outcome's request list. -/
def failTransport : HttpRequest → HttpResponse :=
  fun _ => .transport_error "no network"

/-- A download request whose model id is whitespace only. -/
def blankDownloadRequest : DownloadModelRequest :=
  { model_id := "   ", filename := "model.bin", revision := default_revision
    destination_dir := none, auth_token := none, task_type := .Text }

/-- The download request of the spec's concrete URL example. -/
def orgNameDownloadRequest : DownloadModelRequest :=
  { model_id := "org/name", filename := "model.bin", revision := default_revision
    destination_dir := none, auth_token := none, task_type := .Text }

/-- A transport answering the org/name request with two body chunks. -/
def twoChunkTransport : HttpRequest → HttpResponse :=
  fun _ => .success [[10, 20], [30]]

/-- A start request relying on the derived defaults. -/
def sampleStartRequest : StartServiceRequest :=
  { task_type := .Text, model_path := "/models/m.gguf", binary_path := none
    args := none, environment := none }

/-- A freshly spawned child whose pid is available and whose kill and
wait calls would succeed. -/
def sampleChild : Child :=
  { pid := some 42, kill_error := none, wait_error := none }

/-- A tracked child whose OS pid is no longer available. -/
def reapedChild : Child :=
  { pid := none, kill_error := none, wait_error := none }

/-- A tracked child whose kill call fails. -/
def stubbornChild : Child :=
  { pid := some 43, kill_error := some "operation not permitted", wait_error := none }

/-- A table tracking one healthy Text process. -/
def tableWithText : ProcTable :=
  tableInsert emptyTable .Text
    { child := sampleChild, command := "/usr/local/bin/llmserver"
      args := LlmServerPlugin.default_args .Text "/models/m.gguf" }

/-- A table tracking a Text process whose pid is unavailable. -/
def tableWithReaped : ProcTable :=
  tableInsert emptyTable .Text
    { child := reapedChild, command := "/usr/local/bin/llmserver", args := [] }

/-- A table tracking a Text process whose kill call fails. -/
def tableWithStubborn : ProcTable :=
  tableInsert emptyTable .Text
    { child := stubbornChild, command := "/usr/local/bin/llmserver", args := [] }

/-!
Theorems.
-/

/-- `store_model` in closed form: the reported byte count is the sum of
the chunk sizes and the file content is the in-order concatenation of
the chunks. -/
theorem store_model_eq (chunks : List (List Nat)) :
    LlmServerPlugin.store_model chunks = ((chunks.map List.length).sum, chunks.flatten) := by
  have h : ∀ acc : Nat × List Nat,
      chunks.foldl (fun acc chunk => (acc.1 + chunk.length, acc.2 ++ chunk)) acc
        = (acc.1 + (chunks.map List.length).sum, acc.2 ++ chunks.flatten) := by
    induction chunks with
    | nil => intro acc; simp
    | cons c cs ih =>
        intro acc
        simp [List.foldl_cons, ih, Nat.add_assoc, List.append_assoc]
  simpa [LlmServerPlugin.store_model] using h (0, [])

/-- Claim C4: the retrieval URL is built from the fixed host by
appending the model id's non-empty slash-separated segments, then
`resolve`, the revision (default `main`), and the filename, with query
`download=1`; for model id `org/name`, filename `model.bin` and the
default revision the path segments are exactly
`[org, name, resolve, main, model.bin]`. -/
theorem build_download_url_segments :
    (∀ request : DownloadModelRequest,
      (LlmServerPlugin.build_download_url request).host = "huggingface.co" ∧
      (LlmServerPlugin.build_download_url request).path_segments =
        ((splitSlash request.model_id).filter (fun segment => !rustIsEmpty segment))
          ++ ["resolve", request.revision, request.filename] ∧
      (LlmServerPlugin.build_download_url request).query = some "download=1") ∧
    default_revision = "main" ∧
    (LlmServerPlugin.build_download_url orgNameDownloadRequest).path_segments =
      ["org", "name", "resolve", "main", "model.bin"] ∧
    (LlmServerPlugin.build_download_url orgNameDownloadRequest).query =
      some "download=1" := by
  refine ⟨fun request => ⟨rfl, rfl, rfl⟩, rfl, ?_, rfl⟩
  decide

/-- Claim C3: a download request whose model id or filename is empty
after trimming whitespace fails with the invalid-request error and
issues no HTTP request. -/
theorem download_model_blank_rejected (plugin : LlmServerPlugin)
    (transport : HttpRequest → HttpResponse) (fs_error : Option String)
    (request : DownloadModelRequest)
    (h : rustIsEmpty (rustTrim request.model_id) = true ∨
      rustIsEmpty (rustTrim request.filename) = true) :
    (∃ msg, (plugin.download_model transport fs_error request).result =
      .error (.InvalidRequest msg)) ∧
    (plugin.download_model transport fs_error request).requests = [] := by
  unfold LlmServerPlugin.download_model
  rcases h with h | h
  · simp [h]
  · by_cases hm : rustIsEmpty (rustTrim request.model_id) = true
    · simp [hm]
    · simp [hm, h]

/-- Witness for C3 at a whitespace-only model id. -/
theorem download_model_blank_rejected_witness :
    (rustIsEmpty (rustTrim blankDownloadRequest.model_id) = true ∨
      rustIsEmpty (rustTrim blankDownloadRequest.filename) = true) ∧
    ((∃ msg,
        (samplePlugin.download_model failTransport none blankDownloadRequest).result =
          .error (.InvalidRequest msg)) ∧
      (samplePlugin.download_model failTransport none blankDownloadRequest).requests
        = []) :=
  ⟨Or.inl (by decide),
    download_model_blank_rejected samplePlugin failTransport none
      blankDownloadRequest (Or.inl (by decide))⟩

/-- Claim C9: a plugin that implements only `metadata` and overrides
none of the optional operations answers every one of them with the
unsupported-operation error, which no other error kind shares, so
callers can tell a capability gap from a runtime failure. -/
theorem server_plugin_defaults_unsupported :
    (∀ (m : PluginMetadata) (r : DownloadModelRequest),
      (pluginWithDefaults m).download_model r = .error .UnsupportedOperation) ∧
    (∀ (m : PluginMetadata) (r : StartServiceRequest),
      (pluginWithDefaults m).start_service r = .error .UnsupportedOperation) ∧
    (∀ (m : PluginMetadata) (r : StopServiceRequest),
      (pluginWithDefaults m).stop_service r = .error .UnsupportedOperation) ∧
    PluginError.UnsupportedOperation.isUnsupported = true ∧
    (∀ msg task,
      (PluginError.InvalidRequest msg).isUnsupported = false ∧
      (PluginError.ProcessAlreadyRunning task).isUnsupported = false ∧
      (PluginError.ProcessNotRunning task).isUnsupported = false ∧
      (PluginError.Io msg).isUnsupported = false ∧
      (PluginError.Network msg).isUnsupported = false ∧
      (PluginError.ProcessStart msg).isUnsupported = false) :=
  ⟨fun _ _ => rfl, fun _ _ => rfl, fun _ _ => rfl, rfl,
    fun _ _ => ⟨rfl, rfl, rfl, rfl, rfl, rfl⟩⟩

/-- Claim C1 fails on the code: `start_service` holds the tracking
lock only for the existence check and releases it before the spawn and
the later insert, so two racing starts on the same category can both
pass the check, both spawn, and both report success.  The schedule
check-0, check-1, spawn-0, spawn-1, insert-0, insert-1 drives two
threads from the initial state to a state where both have succeeded
and two processes were spawned. -/
theorem start_race_double_success :
    (raceRun (raceInit 2) [0, 1, 0, 1, 0, 1]).phases =
      [StartPhase.succeeded, StartPhase.succeeded] ∧
    (raceRun (raceInit 2) [0, 1, 0, 1, 0, 1]).spawn_count = 2 := by
  decide

/-- Claim C2 fails on the code: a successful `start_service` performs
two insert operations into the tracking table for the requested
category (`llmserver.rs` lines 247 and 248-255), not exactly one; the
call still succeeds and the second insert overwrites the first. -/
theorem start_service_double_insert :
    (samplePlugin.start_service (.ok sampleChild) emptyTable sampleStartRequest).1 =
      .ok { pid := 42, command := "/usr/local/bin/llmserver"
            args := LlmServerPlugin.default_args .Text "/models/m.gguf" } ∧
    (samplePlugin.start_service (.ok sampleChild) emptyTable sampleStartRequest).2.2 =
      [PluginTaskType.Text, PluginTaskType.Text] ∧
    ((samplePlugin.start_service (.ok sampleChild) emptyTable
        sampleStartRequest).2.2).length = 2 :=
  ⟨rfl, by decide, by decide⟩

/-- Claim C6: stopping a category with no tracked process returns the
process-not-running error and leaves the tracking table unchanged (and
performs no kill or wait). -/
theorem stop_service_not_running (st : ProcTable) (request : StopServiceRequest)
    (h : st request.task_type = none) :
    LlmServerPlugin.stop_service st request =
      (.error (.ProcessNotRunning request.task_type), st, []) := by
  unfold LlmServerPlugin.stop_service
  simp [h]

/-- Witness for C6 on the empty table. -/
theorem stop_service_not_running_witness :
    emptyTable PluginTaskType.Text = none ∧
    LlmServerPlugin.stop_service emptyTable { task_type := PluginTaskType.Text } =
      (.error (.ProcessNotRunning PluginTaskType.Text), emptyTable, []) :=
  ⟨rfl, stop_service_not_running emptyTable { task_type := PluginTaskType.Text } rfl⟩

/-- Claim C7: when a tracked entry is removed and the subsequent kill
or wait fails, `stop_service` returns a process-start-class error and
the entry is not re-inserted: the table has no entry for the category
afterwards. -/
theorem stop_service_kill_failure_not_reinserted (st : ProcTable)
    (request : StopServiceRequest) (m : ManagedProcess)
    (hfound : st request.task_type = some m)
    (hpid : m.child.pid.isSome = true)
    (hfail : m.child.kill_error.isSome = true ∨
      (m.child.kill_error = none ∧ m.child.wait_error.isSome = true)) :
    (∃ msg, (LlmServerPlugin.stop_service st request).1 =
      .error (.ProcessStart msg)) ∧
    (LlmServerPlugin.stop_service st request).2.1 request.task_type = none := by
  rcases Option.isSome_iff_exists.mp hpid with ⟨p, hp⟩
  unfold LlmServerPlugin.stop_service
  rcases hfail with hk | ⟨hk, hw⟩
  · rcases Option.isSome_iff_exists.mp hk with ⟨msg, hmsg⟩
    simp [hfound, hp, hmsg, tableRemove]
  · rcases Option.isSome_iff_exists.mp hw with ⟨msg, hmsg⟩
    simp [hfound, hp, hk, hmsg, tableRemove]

/-- Witness for C7 on a tracked child whose kill call fails. -/
theorem stop_service_kill_failure_not_reinserted_witness :
    tableWithStubborn PluginTaskType.Text =
      some { child := stubbornChild, command := "/usr/local/bin/llmserver"
             args := [] } ∧
    stubbornChild.pid.isSome = true ∧
    stubbornChild.kill_error.isSome = true ∧
    ((∃ msg,
        (LlmServerPlugin.stop_service tableWithStubborn
          { task_type := PluginTaskType.Text }).1 = .error (.ProcessStart msg)) ∧
      (LlmServerPlugin.stop_service tableWithStubborn
        { task_type := PluginTaskType.Text }).2.1 PluginTaskType.Text = none) :=
  ⟨rfl, rfl, rfl,
    stop_service_kill_failure_not_reinserted tableWithStubborn
      { task_type := PluginTaskType.Text }
      { child := stubbornChild, command := "/usr/local/bin/llmserver", args := [] }
      rfl rfl (Or.inl rfl)⟩

/-- Claim C10: every successful `stop_service` reports
`terminated = true` and echoes the requested category; when the tracked
child's pid is unavailable, kill and wait are skipped entirely (the
process-action trace is empty) and the call still succeeds. -/
theorem stop_service_success_reports :
    (∀ (st : ProcTable) (request : StopServiceRequest)
      (resp : StopServiceResponse) (st2 : ProcTable) (tr : List ProcAction),
      LlmServerPlugin.stop_service st request = (.ok resp, st2, tr) →
      resp.terminated = true ∧ resp.task_type = request.task_type) ∧
    (∀ (st : ProcTable) (request : StopServiceRequest) (m : ManagedProcess),
      st request.task_type = some m → m.child.pid = none →
      LlmServerPlugin.stop_service st request =
        (.ok { task_type := request.task_type, terminated := true },
          tableRemove st request.task_type, [])) := by
  constructor
  · intro st request resp st2 tr heq
    unfold LlmServerPlugin.stop_service at heq
    cases hs : st request.task_type with
    | none => rw [hs] at heq; simp at heq
    | some m =>
      rw [hs] at heq
      dsimp only at heq
      cases hp : m.child.pid with
      | none =>
          rw [hp] at heq
          simp only [Prod.mk.injEq, Except.ok.injEq] at heq
          rw [← heq.1]
          exact ⟨rfl, rfl⟩
      | some p =>
          rw [hp] at heq
          cases hk : m.child.kill_error with
          | some err => rw [hk] at heq; simp at heq
          | none =>
            rw [hk] at heq
            cases hw : m.child.wait_error with
            | some err => rw [hw] at heq; simp at heq
            | none =>
                rw [hw] at heq
                simp only [Prod.mk.injEq, Except.ok.injEq] at heq
                rw [← heq.1]
                exact ⟨rfl, rfl⟩
  · intro st request m hm hp
    unfold LlmServerPlugin.stop_service
    simp [hm, hp]

/-- Witness for C10: a successful stop of a healthy tracked process,
and a successful stop of a tracked process whose pid is gone, where no
kill or wait is performed. -/
theorem stop_service_success_reports_witness :
    ((StopServiceResponse.mk PluginTaskType.Text true).terminated = true ∧
      (StopServiceResponse.mk PluginTaskType.Text true).task_type =
        PluginTaskType.Text) ∧
    LlmServerPlugin.stop_service tableWithReaped
        { task_type := PluginTaskType.Text } =
      (.ok { task_type := PluginTaskType.Text, terminated := true },
        tableRemove tableWithReaped PluginTaskType.Text, []) :=
  ⟨stop_service_success_reports.1 tableWithText { task_type := PluginTaskType.Text }
      { task_type := PluginTaskType.Text, terminated := true }
      (tableRemove tableWithText PluginTaskType.Text)
      [ProcAction.kill, ProcAction.wait] rfl,
    stop_service_success_reports.2 tableWithReaped
      { task_type := PluginTaskType.Text }
      { child := reapedChild, command := "/usr/local/bin/llmserver", args := [] }
      rfl rfl⟩

/-- Claim C8: for a start request with a non-empty (after trim) model
path, a successful start reports the request's explicit binary when
supplied and otherwise the plugin-wide default, and reports the
request's explicit args when supplied and otherwise
`serve --model <path> --task <suffix>`; when neither an explicit binary
nor a default is available the call fails with an invalid-request
error. -/
theorem start_service_binary_and_args (plugin : LlmServerPlugin)
    (spawn : Except String Child) (st : ProcTable)
    (request : StartServiceRequest)
    (hmp : rustIsEmpty (rustTrim request.model_path) = false) :
    (∀ (resp : StartServiceResponse) (st2 : ProcTable) (tr : List PluginTaskType),
      plugin.start_service spawn st request = (.ok resp, st2, tr) →
      ((∀ b, request.binary_path = some b → resp.command = b) ∧
        (request.binary_path = none →
          plugin.default_binary = some resp.command) ∧
        resp.args = request.args.getD
          (LlmServerPlugin.default_args request.task_type request.model_path))) ∧
    (request.binary_path = none → plugin.default_binary = none →
      ∃ msg, (plugin.start_service spawn st request).1 =
        .error (.InvalidRequest msg)) := by
  constructor
  · intro resp st2 tr heq
    unfold LlmServerPlugin.start_service at heq
    simp only [hmp, Bool.false_eq_true, if_false] at heq
    cases hrb : plugin.resolve_binary_path request with
    | error e => rw [hrb] at heq; simp at heq
    | ok bp =>
      rw [hrb] at heq
      dsimp only at heq
      by_cases hst : (st request.task_type).isSome
      · rw [if_pos hst] at heq; simp at heq
      · rw [if_neg hst] at heq
        cases hspawn : spawn with
        | error err => rw [hspawn] at heq; simp at heq
        | ok child =>
          rw [hspawn] at heq
          dsimp only at heq
          cases hpid : child.pid with
          | none => rw [hpid] at heq; simp at heq
          | some pid =>
            rw [hpid] at heq
            simp only [Prod.mk.injEq, Except.ok.injEq] at heq
            rw [← heq.1]
            refine ⟨?_, ?_, rfl⟩
            · intro b hb
              unfold LlmServerPlugin.resolve_binary_path at hrb
              rw [hb] at hrb
              simp only [Except.ok.injEq] at hrb
              exact hrb.symm
            · intro hb
              unfold LlmServerPlugin.resolve_binary_path at hrb
              rw [hb] at hrb
              cases hd : plugin.default_binary with
              | none => rw [hd] at hrb; simp at hrb
              | some d =>
                rw [hd] at hrb
                simp only [Except.ok.injEq] at hrb
                rw [hrb]
  · intro hb hd
    unfold LlmServerPlugin.start_service
    simp [hmp, LlmServerPlugin.resolve_binary_path, hb, hd]

/-- Witness for C8: a successful start with derived defaults, and the
invalid-request failure when no binary is resolvable. -/
theorem start_service_binary_and_args_witness :
    rustIsEmpty (rustTrim sampleStartRequest.model_path) = false ∧
    ((∀ b, sampleStartRequest.binary_path = some b →
        (StartServiceResponse.mk 42 "/usr/local/bin/llmserver"
          (LlmServerPlugin.default_args PluginTaskType.Text
            "/models/m.gguf")).command = b) ∧
      (sampleStartRequest.binary_path = none →
        samplePlugin.default_binary = some
          (StartServiceResponse.mk 42 "/usr/local/bin/llmserver"
            (LlmServerPlugin.default_args PluginTaskType.Text
              "/models/m.gguf")).command) ∧
      (StartServiceResponse.mk 42 "/usr/local/bin/llmserver"
        (LlmServerPlugin.default_args PluginTaskType.Text
          "/models/m.gguf")).args = sampleStartRequest.args.getD
        (LlmServerPlugin.default_args sampleStartRequest.task_type
          sampleStartRequest.model_path)) ∧
    (∃ msg, (samplePluginNoDefault.start_service (.ok sampleChild) emptyTable
      sampleStartRequest).1 = .error (.InvalidRequest msg)) :=
  ⟨by decide,
    (start_service_binary_and_args samplePlugin (.ok sampleChild) emptyTable
      sampleStartRequest (by decide)).1
      (StartServiceResponse.mk 42 "/usr/local/bin/llmserver"
        (LlmServerPlugin.default_args PluginTaskType.Text "/models/m.gguf"))
      ((samplePlugin.start_service (.ok sampleChild) emptyTable
        sampleStartRequest).2.1)
      [PluginTaskType.Text, PluginTaskType.Text] rfl,
    (start_service_binary_and_args samplePluginNoDefault (.ok sampleChild)
      emptyTable sampleStartRequest (by decide)).2 rfl rfl⟩

/-- Claim C5: a successful download reports a byte count equal to the
sum of all streamed chunk sizes, writes a file whose content is the
in-order concatenation of the response chunks, and writes it at the
explicit destination directory when supplied and otherwise at the
plugin base directory joined with the category's `text`/`tts`
subdirectory, joined with the filename. -/
theorem download_model_success_spec (plugin : LlmServerPlugin)
    (transport : HttpRequest → HttpResponse) (request : DownloadModelRequest)
    (chunks : List (List Nat))
    (hm : rustIsEmpty (rustTrim request.model_id) = false)
    (hf : rustIsEmpty (rustTrim request.filename) = false)
    (ht : transport { url := LlmServerPlugin.build_download_url request
                      bearer := request.auth_token } = .success chunks) :
    (plugin.download_model transport none request).result =
      .ok { saved_path :=
              path_join (plugin.resolve_destination_dir request) request.filename
            bytes_written := (chunks.map List.length).sum } ∧
    (plugin.download_model transport none request).written =
      some (path_join (plugin.resolve_destination_dir request) request.filename,
        chunks.flatten) ∧
    plugin.resolve_destination_dir request =
      (match request.destination_dir with
        | some dir => dir
        | none =>
            path_join plugin.base_dir request.task_type.as_directory_suffix) := by
  unfold LlmServerPlugin.download_model
  simp only [hm, hf, Bool.false_eq_true, if_false, ht, store_model_eq]
  exact ⟨trivial, trivial, rfl⟩

/-- Witness for C5: downloading `org/name` `model.bin` over a two-chunk
stream writes 3 bytes to the default Text destination. -/
theorem download_model_success_spec_witness :
    rustIsEmpty (rustTrim orgNameDownloadRequest.model_id) = false ∧
    rustIsEmpty (rustTrim orgNameDownloadRequest.filename) = false ∧
    twoChunkTransport
      { url := LlmServerPlugin.build_download_url orgNameDownloadRequest
        bearer := orgNameDownloadRequest.auth_token } = .success [[10, 20], [30]] ∧
    ((samplePlugin.download_model twoChunkTransport none
        orgNameDownloadRequest).result =
      .ok { saved_path :=
              path_join (samplePlugin.resolve_destination_dir orgNameDownloadRequest)
                orgNameDownloadRequest.filename
            bytes_written := ([[10, 20], [30]].map List.length).sum } ∧
      (samplePlugin.download_model twoChunkTransport none
        orgNameDownloadRequest).written =
        some (path_join (samplePlugin.resolve_destination_dir orgNameDownloadRequest)
          orgNameDownloadRequest.filename, [[10, 20], [30]].flatten) ∧
      samplePlugin.resolve_destination_dir orgNameDownloadRequest =
        (match orgNameDownloadRequest.destination_dir with
          | some dir => dir
          | none =>
              path_join samplePlugin.base_dir
                orgNameDownloadRequest.task_type.as_directory_suffix)) :=
  ⟨by decide, by decide, rfl,
    download_model_success_spec samplePlugin twoChunkTransport
      orgNameDownloadRequest [[10, 20], [30]] (by decide) (by decide) rfl⟩
